import Mathlib

/-!
Verification of the three WASM video-decoder wrappers
(src/npm_player/packages/core/src/wasm/decoders/{av1,hevc,vp9}/wrapper.c).

The embedding models each wrapper C file faithfully:
pure geometry computations become Lean functions on Nat, the row-by-row
memcpy loops become the list-building function copyPlane, malloc results
become an explicit allocation plan (the allocator is a black box that either
returns a buffer or NULL), and the wrapped codec libraries become abstract
state-transformer oracles, since they are external black boxes.
-/

namespace WasmDecoders

/-- The DecodedFrame output struct shared by all three wrappers.  Pointer
fields (yPtr, uPtr, vPtr) are replaced by the byte contents of the buffers
they point to; the integer metadata fields keep their C names. -/
structure DecodedFrame where
  width : Nat
  height : Nat
  chromaFormat : Nat
  bitDepth : Nat
  yPlane : List UInt8
  uPlane : List UInt8
  vPlane : List UInt8
  ySize : Nat
  uvSize : Nat
  deriving Repr, DecidableEq

/-- The four heap blocks malloc-ed by an extraction: the three sample planes
and the DecodedFrame struct itself. -/
inductive Buf
  | y
  | u
  | v
  | frameRec
  deriving Repr, DecidableEq

/-- Outcome of the four malloc calls of one extraction attempt: the
allocator is a black box, so whether each of the four calls returns a buffer
or NULL is an input of the model. -/
structure AllocPlan where
  yOk : Bool
  uOk : Bool
  vOk : Bool
  fOk : Bool
  deriving Repr, DecidableEq

/-- The list of blocks whose malloc succeeded, in the order the C code
allocates them (Y, U, V, then the record). -/
def AllocPlan.allocated (p : AllocPlan) : List Buf :=
  (if p.yOk then [Buf.y] else []) ++ (if p.uOk then [Buf.u] else []) ++
  (if p.vOk then [Buf.v] else []) ++ (if p.fOk then [Buf.frameRec] else [])

/-- Result of one extraction attempt: the returned record (none when the C
function returns NULL), which blocks were allocated, and which were freed
before returning.  On success ownership of all four blocks passes to the
caller, so freed is empty. -/
structure ExtractResult where
  frame : Option DecodedFrame
  allocated : List Buf
  freed : List Buf
  deriving Repr, DecidableEq

/-- One destination row of a plane copy: the memcpy
`memcpy(out + row*rowBytes, src + base, rowBytes)` reads the first rowBytes
bytes of the source starting at byte offset base. -/
def copyRow (src : Nat → UInt8) (base rowBytes : Nat) : List UInt8 :=
  (List.range rowBytes).map (fun c => src (base + c))

/-- The row-by-row plane copy loop shared (textually) by all three wrappers:
for each row r below rows, copy rowBytes bytes from source offset r*stride
into destination offset r*rowBytes.  The destination is the concatenation of
the copied rows, hence tightly packed. -/
def copyPlane (src : Nat → UInt8) (stride rowBytes : Nat) : Nat → List UInt8
  | 0 => []
  | n + 1 => copyPlane src stride rowBytes n ++ copyRow src (n * stride) rowBytes

/-- The copied plane has exactly rows * rowBytes bytes: no slack between or
after rows. -/
theorem copyPlane_length (src : Nat → UInt8) (stride rowBytes rows : Nat) :
    (copyPlane src stride rowBytes rows).length = rows * rowBytes := by
  induction rows with
  | zero => simp [copyPlane]
  | succ n ih =>
      simp [copyPlane, copyRow, ih, Nat.succ_mul]

/-- Byte c of destination row r equals byte c of source row r read at the
source stride. -/
theorem copyPlane_get (src : Nat → UInt8) (stride rowBytes : Nat)
    {rows r c : Nat} (hr : r < rows) (hc : c < rowBytes) :
    (copyPlane src stride rowBytes rows).get? (r * rowBytes + c) =
      some (src (r * stride + c)) := by
  induction rows with
  | zero => omega
  | succ n ih =>
      rcases Nat.lt_or_ge r n with h | h
      · have hlt : r * rowBytes + c < (copyPlane src stride rowBytes n).length := by
          rw [copyPlane_length]
          calc r * rowBytes + c < r * rowBytes + rowBytes := by omega
            _ = (r + 1) * rowBytes := by ring
            _ ≤ n * rowBytes := Nat.mul_le_mul_right _ (by omega)
        rw [copyPlane, List.get?_append hlt]
        exact ih h
      · have hrn : r = n := by omega
        subst hrn
        have hlen : (copyPlane src stride rowBytes r).length = r * rowBytes :=
          copyPlane_length ..
        rw [copyPlane, List.get?_append_right (by omega)]
        rw [hlen]
        have : r * rowBytes + c - r * rowBytes = c := by omega
        rw [this]
        simp [copyRow, List.get?_eq_getElem?, List.getElem?_map, List.getElem?_range hc]

/-- The packed-copy contract of claim C2, as a predicate: dst holds exactly
rows rows of rowBytes bytes each, back to back, and byte (r, c) of dst
equals byte c of source row r read at the source stride. -/
def packedCopyOK (dst : List UInt8) (src : Nat → UInt8)
    (stride rowBytes rows : Nat) : Prop :=
  dst.length = rows * rowBytes ∧
  ∀ r < rows, ∀ c < rowBytes, dst.get? (r * rowBytes + c) = some (src (r * stride + c))

theorem copyPlane_packedCopyOK (src : Nat → UInt8) (stride rowBytes rows : Nat) :
    packedCopyOK (copyPlane src stride rowBytes rows) src stride rowBytes rows :=
  ⟨copyPlane_length .., fun _ hr _ hc => copyPlane_get src stride rowBytes hr hc⟩

/-- Chroma plane dimensions exactly as the spec (section 3) words them:
ceil(width/2) x ceil(height/2) for 420, ceil(width/2) x height for 422,
width x height for 444.  Spec-side definition, for comparison with the
per-adapter computations. -/
def specChromaDims (width height fmt : Nat) : Nat × Nat :=
  if fmt = 420 then ((width + 2 - 1) / 2, (height + 2 - 1) / 2)
  else if fmt = 422 then ((width + 2 - 1) / 2, height)
  else (width, height)

/-! ## AV1 wrapper (dav1d) -/

/-- enum Dav1dPixelLayout. -/
inductive Dav1dPixelLayout
  | I400
  | I420
  | I422
  | I444
  deriving Repr, DecidableEq

/-- layout_to_format from the AV1 wrapper: I444 maps to 444, I422 to 422,
every other layout (I420 and I400) to 420. -/
def layout_to_format (layout : Dav1dPixelLayout) : Nat :=
  match layout with
  | .I444 => 444
  | .I422 => 422
  | _ => 420

/-- A dav1d output picture as the wrapper reads it: dimensions, bits per
component, pixel layout, per-plane NULL flags and byte contents, and the
two strides (stride[0] for luma, stride[1] shared by both chroma planes). -/
structure Dav1dPicture where
  w : Nat
  h : Nat
  bpc : Nat
  layout : Dav1dPixelLayout
  dataNull : Fin 3 → Bool
  plane : Fin 3 → Nat → UInt8
  stride : Fin 2 → Nat

/-- The chroma-dimension computation inside the AV1 extract_picture: start
from (width, height), halve both for I420, halve only the width for I422. -/
def av1_chromaDims (width height : Nat) (layout : Dav1dPixelLayout) : Nat × Nat :=
  if layout = .I420 then ((width + 1) / 2, (height + 1) / 2)
  else if layout = .I422 then ((width + 1) / 2, height)
  else (width, height)

/-- The record the AV1 extract_picture populates on the all-allocations-
succeeded path: geometry, bit depth and the three row-by-row plane copies,
exactly as the source computes them (both chroma planes are read at
pic.stride[1]). -/
def av1_frame (pic : Dav1dPicture) : DecodedFrame :=
  let width := pic.w
  let height := pic.h
  let bpc := pic.bpc
  let cd := av1_chromaDims width height pic.layout
  let chromaW := cd.1
  let chromaH := cd.2
  let bytesPerSample := if bpc > 8 then 2 else 1
  let yRowBytes := width * bytesPerSample
  let uvRowBytes := chromaW * bytesPerSample
  { width := width
    height := height
    chromaFormat := layout_to_format pic.layout
    bitDepth := bpc
    yPlane := copyPlane (pic.plane 0) (pic.stride 0) yRowBytes height
    uPlane := copyPlane (pic.plane 1) (pic.stride 1) uvRowBytes chromaH
    vPlane := copyPlane (pic.plane 2) (pic.stride 1) uvRowBytes chromaH
    ySize := width * height * bytesPerSample
    uvSize := chromaW * chromaH * bytesPerSample }

/-- extract_picture of the AV1 wrapper.  Guard: NULL picture or NULL
pic.data[0] returns NULL before any allocation.  Then the four mallocs; if
any failed, every successful one is freed and NULL is returned; otherwise
the three planes are copied row by row and the record is populated. -/
def av1_extract_picture (p : AllocPlan) (pic : Option Dav1dPicture) : ExtractResult :=
  match pic with
  | none => ⟨none, [], []⟩
  | some pic =>
    if pic.dataNull 0 then ⟨none, [], []⟩
    else if p.yOk && p.uOk && p.vOk && p.fOk then
      ⟨some (av1_frame pic), p.allocated, []⟩
    else
      ⟨none, p.allocated, p.allocated⟩

/-! ## HEVC wrapper (libde265) -/

/-- enum de265_chroma. -/
inductive De265Chroma
  | mono
  | c420
  | c422
  | c444
  deriving Repr, DecidableEq

/-- chroma_to_format from the HEVC wrapper: 444 maps to 444, 422 to 422,
every other value (420 and mono) to 420. -/
def chroma_to_format (c : De265Chroma) : Nat :=
  match c with
  | .c444 => 444
  | .c422 => 422
  | _ => 420

/-- A libde265 output image as the wrapper reads it: width, height and bits
per pixel of channel 0, the chroma format, and per-plane NULL flags, byte
contents and strides as returned by de265_get_image_plane. -/
structure De265Image where
  width : Nat
  height : Nat
  bpp : Nat
  chroma : De265Chroma
  planeNull : Fin 3 → Bool
  plane : Fin 3 → Nat → UInt8
  stride : Fin 3 → Nat

/-- The chroma-dimension computation inside the HEVC extract_picture. -/
def hevc_chromaDims (width height : Nat) (c : De265Chroma) : Nat × Nat :=
  if c = .c420 then ((width + 1) / 2, (height + 1) / 2)
  else if c = .c422 then ((width + 1) / 2, height)
  else (width, height)

/-- The record the HEVC extract_picture populates on the all-allocations-
succeeded path; unlike the AV1 wrapper, the two chroma planes carry their
own strides. -/
def hevc_frame (img : De265Image) : DecodedFrame :=
  let width := img.width
  let height := img.height
  let bpp := img.bpp
  let cd := hevc_chromaDims width height img.chroma
  let chromaW := cd.1
  let chromaH := cd.2
  let bytesPerSample := if bpp > 8 then 2 else 1
  let yRowBytes := width * bytesPerSample
  let uvRowBytes := chromaW * bytesPerSample
  { width := width
    height := height
    chromaFormat := chroma_to_format img.chroma
    bitDepth := bpp
    yPlane := copyPlane (img.plane 0) (img.stride 0) yRowBytes height
    uPlane := copyPlane (img.plane 1) (img.stride 1) uvRowBytes chromaH
    vPlane := copyPlane (img.plane 2) (img.stride 2) uvRowBytes chromaH
    ySize := width * height * bytesPerSample
    uvSize := chromaW * chromaH * bytesPerSample }

/-- extract_picture of the HEVC wrapper.  Guards: NULL image, then NULL in
any of the three plane pointers, both before any allocation.  Then the same
four-malloc, free-on-failure, row-by-row-copy shape as the AV1 wrapper. -/
def hevc_extract_picture (p : AllocPlan) (img : Option De265Image) : ExtractResult :=
  match img with
  | none => ⟨none, [], []⟩
  | some img =>
    if img.planeNull 0 || img.planeNull 1 || img.planeNull 2 then ⟨none, [], []⟩
    else if p.yOk && p.uOk && p.vOk && p.fOk then
      ⟨some (hevc_frame img), p.allocated, []⟩
    else
      ⟨none, p.allocated, p.allocated⟩

/-! ## VP9 wrapper (libvpx) -/

/-- The planar base layouts of vpx_img_fmt_t that the wrapper can see. -/
inductive VpxFmtBase
  | YV12
  | I420
  | I422
  | I444
  | I440
  | NV12
  deriving Repr, DecidableEq

/-- vpx_img_fmt_t: a base layout plus the VPX_IMG_FMT_HIGHBITDEPTH flag bit
(the 16-bit variants I42016, I42216, I44416, I44016 are the flagged forms of
the corresponding base layouts). -/
structure VpxImgFmt where
  base : VpxFmtBase
  highBitDepth : Bool
  deriving Repr, DecidableEq

/-- vpx_fmt_to_chroma: I444 and I44416 map to 444, I422 and I42216 to 422,
every other format to 420. -/
def vpx_fmt_to_chroma (fmt : VpxImgFmt) : Nat :=
  match fmt.base with
  | .I444 => 444
  | .I422 => 422
  | _ => 420

/-- vpx_fmt_bpc: 10 when the format carries the high-bit-depth flag, else 8.
The actual sample depth of the stream (e.g. 12) is never consulted. -/
def vpx_fmt_bpc (fmt : VpxImgFmt) : Nat :=
  if fmt.highBitDepth then 10 else 8

/-- A libvpx output image as the wrapper reads it.  bit_depth is the field
of vpx_image_t holding the true sample depth (8, 10 or 12); the wrapper
never reads it, which the model makes checkable by carrying it. -/
structure VpxImage where
  d_w : Nat
  d_h : Nat
  fmt : VpxImgFmt
  bit_depth : Nat
  plane : Fin 3 → Nat → UInt8
  stride : Fin 3 → Nat

/-- The chroma-dimension computation inside the VP9 extract_image: keyed on
the already-mapped chroma format rather than on the raw layout. -/
def vp9_chromaDims (width height : Nat) (fmt : VpxImgFmt) : Nat × Nat :=
  let chromaFmt := vpx_fmt_to_chroma fmt
  if chromaFmt = 420 then ((width + 1) / 2, (height + 1) / 2)
  else if chromaFmt = 422 then ((width + 1) / 2, height)
  else (width, height)

/-- The record the VP9 extract_image populates on the all-allocations-
succeeded path, with per-plane strides. -/
def vp9_frame (img : VpxImage) : DecodedFrame :=
  let width := img.d_w
  let height := img.d_h
  let bpc := vpx_fmt_bpc img.fmt
  let cd := vp9_chromaDims width height img.fmt
  let chromaW := cd.1
  let chromaH := cd.2
  let bytesPerSample := if bpc > 8 then 2 else 1
  let yRowBytes := width * bytesPerSample
  let uvRowBytes := chromaW * bytesPerSample
  { width := width
    height := height
    chromaFormat := vpx_fmt_to_chroma img.fmt
    bitDepth := bpc
    yPlane := copyPlane (img.plane 0) (img.stride 0) yRowBytes height
    uPlane := copyPlane (img.plane 1) (img.stride 1) uvRowBytes chromaH
    vPlane := copyPlane (img.plane 2) (img.stride 2) uvRowBytes chromaH
    ySize := width * height * bytesPerSample
    uvSize := chromaW * chromaH * bytesPerSample }

/-- extract_image of the VP9 wrapper.  Guard: NULL image only (no per-plane
NULL checks).  Then the same four-malloc, free-on-failure, row-by-row-copy
shape as the other two wrappers. -/
def vp9_extract_image (p : AllocPlan) (img : Option VpxImage) : ExtractResult :=
  match img with
  | none => ⟨none, [], []⟩
  | some img =>
    if p.yOk && p.uOk && p.vOk && p.fOk then
      ⟨some (vp9_frame img), p.allocated, []⟩
    else
      ⟨none, p.allocated, p.allocated⟩

/-! ## Session-level decode models

The wrapped libraries are black boxes; each is modelled as a record of
state-transformer oracles over an abstract context type.  A decoder handle
is an Option of the wrapper struct (none models a NULL handle token); each
decode call additionally takes the allocator outcomes for that call and
returns the result token, the updated handle, and the list of calls made
into the library, so that the guard clauses can be shown to fire before any
library interaction. -/

/-- The calls a wrapper can make into its wrapped library or input-buffer
allocator, named after the C entry points. -/
inductive LibCall
  | dataCreate
  | sendData
  | getPicture
  | pictureUnref
  | pushNAL
  | decodeRun
  | getNextPicture
  | releaseNextPicture
  | codecDecode
  | getFrame
  deriving Repr, DecidableEq

/-- dav1d as a black box: sending one input buffer (with the EAGAIN retry
loop folded into the oracle) and fetching one picture. -/
structure Dav1dLib (Ctx : Type) where
  send : Ctx → List UInt8 → Ctx
  getPicture : Ctx → Ctx × Option Dav1dPicture

/-- struct Av1Decoder: one possibly-NULL Dav1dContext pointer (the settings
struct is write-only after creation and omitted). -/
structure Av1Decoder (Ctx : Type) where
  ctx : Option Ctx

/-- av1_decode.  Guard in source order: NULL handle, NULL context, NULL
data, size at most 0 — each returns 0 with no library call.  Then
dav1d_data_create (which can fail, modelled by dataCreateOk), the send loop,
one dav1d_get_picture, and extraction plus dav1d_picture_unref when a
picture arrived.  The is_keyframe argument is received and discarded, as in
the source. -/
def av1_decode {Ctx : Type} (lib : Dav1dLib Ctx) (dataCreateOk : Bool)
    (plan : AllocPlan) (dec : Option (Av1Decoder Ctx))
    (data : Option (List UInt8)) (size : Int) (is_keyframe : Int) :
    Option DecodedFrame × Option (Av1Decoder Ctx) × List LibCall :=
  match dec with
  | none => (none, none, [])
  | some d =>
    match d.ctx with
    | none => (none, some d, [])
    | some c =>
      match data with
      | none => (none, some d, [])
      | some bytes =>
        if size ≤ 0 then (none, some d, [])
        else if !dataCreateOk then (none, some d, [LibCall.dataCreate])
        else
          let c1 := lib.send c bytes
          let step := lib.getPicture c1
          match step.2 with
          | none =>
              (none, some ⟨some step.1⟩,
               [LibCall.dataCreate, LibCall.sendData, LibCall.getPicture])
          | some pic =>
              ((av1_extract_picture plan (some pic)).frame, some ⟨some step.1⟩,
               [LibCall.dataCreate, LibCall.sendData, LibCall.getPicture,
                LibCall.pictureUnref])

/-- av1_configure: the body only casts its arguments to void, so the handle
state is returned unchanged and no library call is made. -/
def av1_configure {Ctx : Type} (dec : Option (Av1Decoder Ctx))
    (config : Option (List UInt8)) (size : Int) : Option (Av1Decoder Ctx) :=
  dec

/-- libde265 as a black box: pushing one NAL unit, running the decode step,
peeking the next output picture, and releasing it. -/
structure De265Lib (Ctx : Type) where
  pushNAL : Ctx → List UInt8 → Ctx
  decodeRun : Ctx → Ctx
  getNextPicture : Ctx → Option De265Image
  releaseNextPicture : Ctx → Ctx

/-- struct HevcDecoder: one possibly-NULL de265_decoder_context pointer. -/
structure HevcDecoder (Ctx : Type) where
  ctx : Option Ctx

/-- hevc_decode.  Guard in source order: NULL handle, NULL context, NULL
data, size at most 0.  Then de265_push_NAL, de265_decode, one
de265_get_next_picture, and extraction plus de265_release_next_picture when
a picture was available.  The is_keyframe argument is discarded. -/
def hevc_decode {Ctx : Type} (lib : De265Lib Ctx) (plan : AllocPlan)
    (dec : Option (HevcDecoder Ctx)) (data : Option (List UInt8))
    (size : Int) (is_keyframe : Int) :
    Option DecodedFrame × Option (HevcDecoder Ctx) × List LibCall :=
  match dec with
  | none => (none, none, [])
  | some d =>
    match d.ctx with
    | none => (none, some d, [])
    | some c =>
      match data with
      | none => (none, some d, [])
      | some bytes =>
        if size ≤ 0 then (none, some d, [])
        else
          let c1 := lib.decodeRun (lib.pushNAL c bytes)
          match lib.getNextPicture c1 with
          | none =>
              (none, some ⟨some c1⟩,
               [LibCall.pushNAL, LibCall.decodeRun, LibCall.getNextPicture])
          | some img =>
              ((hevc_extract_picture plan (some img)).frame,
               some ⟨some (lib.releaseNextPicture c1)⟩,
               [LibCall.pushNAL, LibCall.decodeRun, LibCall.getNextPicture,
                LibCall.releaseNextPicture])

/-- libvpx as a black box: one vpx_codec_decode call (Bool is whether it
returned VPX_CODEC_OK) and one vpx_codec_get_frame call. -/
structure VpxLib (Ctx : Type) where
  codecDecode : Ctx → List UInt8 → Ctx × Bool
  getFrame : Ctx → Option VpxImage

/-- struct Vp9Decoder: the inline vpx_codec_ctx_t plus the int flag set
after successful vpx_codec_dec_init. -/
structure Vp9Decoder (Ctx : Type) where
  codec : Ctx
  inited : Bool

/-- vp9_decode.  Guard in source order: NULL handle, the init flag clear,
NULL data, size at most 0.  Then vpx_codec_decode (0 on non-OK return), one
vpx_codec_get_frame, and extraction when a frame was available.  The
is_keyframe argument is discarded. -/
def vp9_decode {Ctx : Type} (lib : VpxLib Ctx) (plan : AllocPlan)
    (dec : Option (Vp9Decoder Ctx)) (data : Option (List UInt8))
    (size : Int) (is_keyframe : Int) :
    Option DecodedFrame × Option (Vp9Decoder Ctx) × List LibCall :=
  match dec with
  | none => (none, none, [])
  | some d =>
    if !d.inited then (none, some d, [])
    else
      match data with
      | none => (none, some d, [])
      | some bytes =>
        if size ≤ 0 then (none, some d, [])
        else
          let step := lib.codecDecode d.codec bytes
          if !step.2 then (none, some { d with codec := step.1 }, [LibCall.codecDecode])
          else
            match lib.getFrame step.1 with
            | none =>
                (none, some { d with codec := step.1 },
                 [LibCall.codecDecode, LibCall.getFrame])
            | some img =>
                ((vp9_extract_image plan (some img)).frame,
                 some { d with codec := step.1 },
                 [LibCall.codecDecode, LibCall.getFrame])

/-- vp9_configure: the body only casts its arguments to void, so the handle
state is returned unchanged and no library call is made. -/
def vp9_configure {Ctx : Type} (dec : Option (Vp9Decoder Ctx))
    (config : Option (List UInt8)) (size : Int) : Option (Vp9Decoder Ctx) :=
  dec

/-- The per-call inputs of one decode invocation: the input-buffer allocator
outcome (used only by the AV1 wrapper), the four extraction allocator
outcomes, the data pointer, the size, and the keyframe hint. -/
structure DecodeInput where
  dataCreateOk : Bool
  plan : AllocPlan
  data : Option (List UInt8)
  size : Int
  keyframe : Int

/-- A sequence of av1_decode calls on one handle, returning the result
tokens in order and the final handle state. -/
def runAv1Decodes {Ctx : Type} (lib : Dav1dLib Ctx) :
    Option (Av1Decoder Ctx) → List DecodeInput →
    List (Option DecodedFrame) × Option (Av1Decoder Ctx)
  | dec, [] => ([], dec)
  | dec, i :: rest =>
    let step := av1_decode lib i.dataCreateOk i.plan dec i.data i.size i.keyframe
    let tail := runAv1Decodes lib step.2.1 rest
    (step.1 :: tail.1, tail.2)

/-- A sequence of vp9_decode calls on one handle, returning the result
tokens in order and the final handle state. -/
def runVp9Decodes {Ctx : Type} (lib : VpxLib Ctx) :
    Option (Vp9Decoder Ctx) → List DecodeInput →
    List (Option DecodedFrame) × Option (Vp9Decoder Ctx)
  | dec, [] => ([], dec)
  | dec, i :: rest =>
    let step := vp9_decode lib i.plan dec i.data i.size i.keyframe
    let tail := runVp9Decodes lib step.2.1 rest
    (step.1 :: tail.1, tail.2)

/-! ## Token-level model of the handle guards

Every exported operation receives an integer token and immediately casts it
to a struct pointer.  What that dereference can observe is: the token is 0
(NULL — the cast pointer is NULL and the `!dec` guard fires), the token
points to a live struct, or the token points to a struct that destroy (or
free_frame) already freed.  In the last case the C code reads freed memory:
the guard sees whatever residual bytes the allocator left there, and cannot
distinguish a dangling struct from a live one — the model expresses this by
giving live and dangling the same observable payload and by having every
guard treat the two constructors identically. -/

/-- What dereferencing a handle token yields.  The payload is the field the
guard inspects (the context pointer being non-NULL, or the init flag). -/
inductive Deref (α : Type)
  | null : Deref α
  | live : α → Deref α
  | dangling : α → Deref α
  deriving Repr, DecidableEq

/-- How far an exported operation gets for a given token: it returns before
touching the library or the allocator (with the given result token, 0 where
the operation returns void), or it proceeds into library calls, frees, or
allocations — an effect on decoder or allocator state. -/
inductive OpOutcome
  | noop : Int → OpOutcome
  | proceeds : OpOutcome
  deriving Repr, DecidableEq

/-- av1_configure on a token: the body ignores all arguments, so every
token — NULL, live or dangling — is a no-op. -/
def av1_configure_onToken (d : Deref Bool) (configNull : Bool) (size : Int) :
    OpOutcome :=
  OpOutcome.noop 0

/-- av1_decode on a token: NULL returns 0; otherwise the guard reads the
ctx field of whatever memory the token points to, and proceeds into
dav1d_data_create when ctx is non-NULL, data is non-NULL and size is
positive. -/
def av1_decode_onToken (d : Deref Bool) (dataNull : Bool) (size : Int) :
    OpOutcome :=
  match d with
  | .null => OpOutcome.noop 0
  | .live ctxNonNull | .dangling ctxNonNull =>
    if !ctxNonNull || dataNull || size ≤ 0 then OpOutcome.noop 0
    else OpOutcome.proceeds

/-- av1_flush on a token: NULL returns 0; otherwise proceeds into
dav1d_flush when the observed ctx field is non-NULL. -/
def av1_flush_onToken (d : Deref Bool) : OpOutcome :=
  match d with
  | .null => OpOutcome.noop 0
  | .live ctxNonNull | .dangling ctxNonNull =>
    if ctxNonNull then OpOutcome.proceeds else OpOutcome.noop 0

/-- av1_destroy on a token: NULL returns; any other token is passed to
free(dec) (and dav1d_close first when the observed ctx is non-NULL), so a
non-NULL token always proceeds into allocator calls. -/
def av1_destroy_onToken (d : Deref Bool) : OpOutcome :=
  match d with
  | .null => OpOutcome.noop 0
  | .live _ | .dangling _ => OpOutcome.proceeds

/-- hevc_configure on a token: NULL returns; otherwise proceeds into
de265_push_NAL when the observed ctx is non-NULL, config is non-NULL and
size is positive. -/
def hevc_configure_onToken (d : Deref Bool) (configNull : Bool) (size : Int) :
    OpOutcome :=
  match d with
  | .null => OpOutcome.noop 0
  | .live ctxNonNull | .dangling ctxNonNull =>
    if !ctxNonNull || configNull || size ≤ 0 then OpOutcome.noop 0
    else OpOutcome.proceeds

/-- hevc_decode on a token. -/
def hevc_decode_onToken (d : Deref Bool) (dataNull : Bool) (size : Int) :
    OpOutcome :=
  match d with
  | .null => OpOutcome.noop 0
  | .live ctxNonNull | .dangling ctxNonNull =>
    if !ctxNonNull || dataNull || size ≤ 0 then OpOutcome.noop 0
    else OpOutcome.proceeds

/-- hevc_flush on a token. -/
def hevc_flush_onToken (d : Deref Bool) : OpOutcome :=
  match d with
  | .null => OpOutcome.noop 0
  | .live ctxNonNull | .dangling ctxNonNull =>
    if ctxNonNull then OpOutcome.proceeds else OpOutcome.noop 0

/-- hevc_destroy on a token. -/
def hevc_destroy_onToken (d : Deref Bool) : OpOutcome :=
  match d with
  | .null => OpOutcome.noop 0
  | .live _ | .dangling _ => OpOutcome.proceeds

/-- vp9_configure on a token: the body ignores all arguments. -/
def vp9_configure_onToken (d : Deref Bool) (configNull : Bool) (size : Int) :
    OpOutcome :=
  OpOutcome.noop 0

/-- vp9_decode on a token: the payload is the observed init flag. -/
def vp9_decode_onToken (d : Deref Bool) (dataNull : Bool) (size : Int) :
    OpOutcome :=
  match d with
  | .null => OpOutcome.noop 0
  | .live initedFlag | .dangling initedFlag =>
    if !initedFlag || dataNull || size ≤ 0 then OpOutcome.noop 0
    else OpOutcome.proceeds

/-- vp9_flush on a token. -/
def vp9_flush_onToken (d : Deref Bool) : OpOutcome :=
  match d with
  | .null => OpOutcome.noop 0
  | .live initedFlag | .dangling initedFlag =>
    if initedFlag then OpOutcome.proceeds else OpOutcome.noop 0

/-- vp9_destroy on a token: any non-NULL token reaches free(dec). -/
def vp9_destroy_onToken (d : Deref Bool) : OpOutcome :=
  match d with
  | .null => OpOutcome.noop 0
  | .live _ | .dangling _ => OpOutcome.proceeds

/-- free_frame on a token: NULL returns; any other token reaches the four
free calls (the payload of the deref is unused by the guard). -/
def free_frame_onToken (d : Deref Unit) : OpOutcome :=
  match d with
  | .null => OpOutcome.noop 0
  | .live _ | .dangling _ => OpOutcome.proceeds

/-! ## Inversion lemmas and concrete fixtures -/

/-- A returned AV1 record means: the data[0] guard passed, all four mallocs
succeeded, and the record is exactly av1_frame of the picture. -/
theorem av1_extract_inv (p : AllocPlan) (pic : Dav1dPicture) (f : DecodedFrame)
    (h : (av1_extract_picture p (some pic)).frame = some f) :
    pic.dataNull 0 = false ∧
    p.yOk = true ∧ p.uOk = true ∧ p.vOk = true ∧ p.fOk = true ∧
    f = av1_frame pic := by
  by_cases h0 : pic.dataNull 0 <;>
    by_cases hp : (p.yOk && p.uOk && p.vOk && p.fOk) = true <;>
    simp [av1_extract_picture, h0, hp] at h <;>
    simp_all [Bool.and_eq_true]

/-- A returned HEVC record means: all three plane pointers were non-NULL,
all four mallocs succeeded, and the record is exactly hevc_frame. -/
theorem hevc_extract_inv (p : AllocPlan) (img : De265Image) (f : DecodedFrame)
    (h : (hevc_extract_picture p (some img)).frame = some f) :
    img.planeNull 0 = false ∧ img.planeNull 1 = false ∧ img.planeNull 2 = false ∧
    p.yOk = true ∧ p.uOk = true ∧ p.vOk = true ∧ p.fOk = true ∧
    f = hevc_frame img := by
  by_cases h0 : (img.planeNull 0 || img.planeNull 1 || img.planeNull 2) = true <;>
    by_cases hp : (p.yOk && p.uOk && p.vOk && p.fOk) = true <;>
    simp [hevc_extract_picture, h0, hp] at h <;>
    simp_all [Bool.and_eq_true, Bool.or_eq_true]

/-- A returned VP9 record means: all four mallocs succeeded and the record
is exactly vp9_frame. -/
theorem vp9_extract_inv (p : AllocPlan) (img : VpxImage) (f : DecodedFrame)
    (h : (vp9_extract_image p (some img)).frame = some f) :
    p.yOk = true ∧ p.uOk = true ∧ p.vOk = true ∧ p.fOk = true ∧
    f = vp9_frame img := by
  by_cases hp : (p.yOk && p.uOk && p.vOk && p.fOk) = true <;>
    simp [vp9_extract_image, hp] at h <;>
    simp_all [Bool.and_eq_true]

/-- The all-mallocs-succeed allocation plan. -/
def allOkPlan : AllocPlan := ⟨true, true, true, true⟩

/-- A concrete 2x2 I420 dav1d picture with 12 bits per component, as dav1d
reports for a 12-bit (professional profile) stream. -/
def av1Pic12 : Dav1dPicture :=
  { w := 2, h := 2, bpc := 12, layout := .I420,
    dataNull := fun _ => false, plane := fun _ off => UInt8.ofNat off,
    stride := fun _ => 8 }

/-- A concrete 2x2 8-bit I420 dav1d picture. -/
def av1Pic8 : Dav1dPicture :=
  { w := 2, h := 2, bpc := 8, layout := .I420,
    dataNull := fun _ => false, plane := fun _ off => UInt8.ofNat off,
    stride := fun _ => 4 }

/-- A concrete 2x2 8-bit 420 libde265 image. -/
def hevcImg8 : De265Image :=
  { width := 2, height := 2, bpp := 8, chroma := .c420,
    planeNull := fun _ => false, plane := fun _ off => UInt8.ofNat off,
    stride := fun _ => 4 }

/-- A concrete 2x2 libvpx image in a high-bit-depth format whose true
sample depth is 12 (VPX_IMG_FMT_I42016 carrying a 12-bit stream). -/
def vp9Img12 : VpxImage :=
  { d_w := 2, d_h := 2, fmt := ⟨.I420, true⟩, bit_depth := 12,
    plane := fun _ off => UInt8.ofNat off, stride := fun _ => 8 }

/-- A concrete 2x2 8-bit libvpx image. -/
def vp9Img8 : VpxImage :=
  { d_w := 2, d_h := 2, fmt := ⟨.I420, false⟩, bit_depth := 8,
    plane := fun _ off => UInt8.ofNat off, stride := fun _ => 4 }

/-- A dav1d oracle over the trivial context that never yields a picture. -/
def trivialDav1dLib : Dav1dLib Unit :=
  { send := fun c _ => c, getPicture := fun c => (c, none) }

/-- A libde265 oracle over the trivial context that never yields a picture. -/
def trivialDe265Lib : De265Lib Unit :=
  { pushNAL := fun c _ => c, decodeRun := fun c => c,
    getNextPicture := fun _ => none, releaseNextPicture := fun c => c }

/-- A libvpx oracle over the trivial context that never yields a frame. -/
def trivialVpxLib : VpxLib Unit :=
  { codecDecode := fun c _ => (c, true), getFrame := fun _ => none }

/-! ## Shared chroma-geometry lemmas -/

theorem nat_add_two_sub_one (n : Nat) : n + 2 - 1 = n + 1 := by omega

/-- For every layout except monochrome, the AV1 chroma-dimension computation
agrees with the spec formula applied to the reported format. -/
theorem av1_chromaDims_eq_spec (w h : Nat) (l : Dav1dPixelLayout)
    (hl : l ≠ Dav1dPixelLayout.I400) :
    av1_chromaDims w h l = specChromaDims w h (layout_to_format l) := by
  cases l <;>
    simp_all [av1_chromaDims, layout_to_format, specChromaDims, nat_add_two_sub_one]

/-- For every chroma value except monochrome, the HEVC chroma-dimension
computation agrees with the spec formula applied to the reported format. -/
theorem hevc_chromaDims_eq_spec (w h : Nat) (c : De265Chroma)
    (hc : c ≠ De265Chroma.mono) :
    hevc_chromaDims w h c = specChromaDims w h (chroma_to_format c) := by
  cases c <;>
    simp_all [hevc_chromaDims, chroma_to_format, specChromaDims, nat_add_two_sub_one]

/-- For every vpx image format, the VP9 chroma-dimension computation agrees
with the spec formula applied to the mapped format. -/
theorem vp9_chromaDims_eq_spec (w h : Nat) (fmt : VpxImgFmt) :
    vp9_chromaDims w h fmt = specChromaDims w h (vpx_fmt_to_chroma fmt) := by
  rcases fmt with ⟨base, b⟩
  cases base <;>
    simp [vp9_chromaDims, vpx_fmt_to_chroma, specChromaDims, nat_add_two_sub_one]

/-! ## Claims -/

/-- C1: in all three extractors the chroma plane dimensions used for
allocation and copying are ceil(width/2) x ceil(height/2) when the reported
subsampling is 4:2:0, ceil(width/2) x height for 4:2:2, and width x height
for 4:4:4; all nine cases equal the single spec-side function
specChromaDims, so the derivation is the same function of
(width, height, subsampling) in the AV1, HEVC and VP9 extractors. -/
theorem claim_C1 (w h : Nat) (b : Bool) :
    av1_chromaDims w h Dav1dPixelLayout.I420 = specChromaDims w h 420 ∧
    av1_chromaDims w h Dav1dPixelLayout.I422 = specChromaDims w h 422 ∧
    av1_chromaDims w h Dav1dPixelLayout.I444 = specChromaDims w h 444 ∧
    hevc_chromaDims w h De265Chroma.c420 = specChromaDims w h 420 ∧
    hevc_chromaDims w h De265Chroma.c422 = specChromaDims w h 422 ∧
    hevc_chromaDims w h De265Chroma.c444 = specChromaDims w h 444 ∧
    vp9_chromaDims w h ⟨VpxFmtBase.I420, b⟩ = specChromaDims w h 420 ∧
    vp9_chromaDims w h ⟨VpxFmtBase.I422, b⟩ = specChromaDims w h 422 ∧
    vp9_chromaDims w h ⟨VpxFmtBase.I444, b⟩ = specChromaDims w h 444 := by
  refine ⟨?_, ?_, ?_, ?_, ?_, ?_, ?_, ?_, ?_⟩
  · simpa [layout_to_format] using
      av1_chromaDims_eq_spec w h Dav1dPixelLayout.I420 (by simp)
  · simpa [layout_to_format] using
      av1_chromaDims_eq_spec w h Dav1dPixelLayout.I422 (by simp)
  · simpa [layout_to_format] using
      av1_chromaDims_eq_spec w h Dav1dPixelLayout.I444 (by simp)
  · simpa [chroma_to_format] using
      hevc_chromaDims_eq_spec w h De265Chroma.c420 (by simp)
  · simpa [chroma_to_format] using
      hevc_chromaDims_eq_spec w h De265Chroma.c422 (by simp)
  · simpa [chroma_to_format] using
      hevc_chromaDims_eq_spec w h De265Chroma.c444 (by simp)
  · simpa [vpx_fmt_to_chroma] using
      vp9_chromaDims_eq_spec w h ⟨VpxFmtBase.I420, b⟩
  · simpa [vpx_fmt_to_chroma] using
      vp9_chromaDims_eq_spec w h ⟨VpxFmtBase.I422, b⟩
  · simpa [vpx_fmt_to_chroma] using
      vp9_chromaDims_eq_spec w h ⟨VpxFmtBase.I444, b⟩

/-- C2: for every extracted record and every plane, the destination buffer
is tightly packed (exactly rows x rowBytes bytes, rows back to back) and
each of its rows is byte-for-byte the first rowBytes bytes of the
corresponding source row read at the library-reported stride, in all three
adapters.  The equalities hold for every source stride, in particular for
every stride at least the packed row width. -/
theorem claim_C2 (p : AllocPlan) (pic : Dav1dPicture) (img : De265Image)
    (vimg : VpxImage) (fa fh fv : DecodedFrame)
    (ha : (av1_extract_picture p (some pic)).frame = some fa)
    (hh : (hevc_extract_picture p (some img)).frame = some fh)
    (hv : (vp9_extract_image p (some vimg)).frame = some fv) :
    (packedCopyOK fa.yPlane (pic.plane 0) (pic.stride 0)
        (pic.w * (if pic.bpc > 8 then 2 else 1)) pic.h ∧
     packedCopyOK fa.uPlane (pic.plane 1) (pic.stride 1)
        ((av1_chromaDims pic.w pic.h pic.layout).1 * (if pic.bpc > 8 then 2 else 1))
        (av1_chromaDims pic.w pic.h pic.layout).2 ∧
     packedCopyOK fa.vPlane (pic.plane 2) (pic.stride 1)
        ((av1_chromaDims pic.w pic.h pic.layout).1 * (if pic.bpc > 8 then 2 else 1))
        (av1_chromaDims pic.w pic.h pic.layout).2) ∧
    (packedCopyOK fh.yPlane (img.plane 0) (img.stride 0)
        (img.width * (if img.bpp > 8 then 2 else 1)) img.height ∧
     packedCopyOK fh.uPlane (img.plane 1) (img.stride 1)
        ((hevc_chromaDims img.width img.height img.chroma).1 *
          (if img.bpp > 8 then 2 else 1))
        (hevc_chromaDims img.width img.height img.chroma).2 ∧
     packedCopyOK fh.vPlane (img.plane 2) (img.stride 2)
        ((hevc_chromaDims img.width img.height img.chroma).1 *
          (if img.bpp > 8 then 2 else 1))
        (hevc_chromaDims img.width img.height img.chroma).2) ∧
    (packedCopyOK fv.yPlane (vimg.plane 0) (vimg.stride 0)
        (vimg.d_w * (if vpx_fmt_bpc vimg.fmt > 8 then 2 else 1)) vimg.d_h ∧
     packedCopyOK fv.uPlane (vimg.plane 1) (vimg.stride 1)
        ((vp9_chromaDims vimg.d_w vimg.d_h vimg.fmt).1 *
          (if vpx_fmt_bpc vimg.fmt > 8 then 2 else 1))
        (vp9_chromaDims vimg.d_w vimg.d_h vimg.fmt).2 ∧
     packedCopyOK fv.vPlane (vimg.plane 2) (vimg.stride 2)
        ((vp9_chromaDims vimg.d_w vimg.d_h vimg.fmt).1 *
          (if vpx_fmt_bpc vimg.fmt > 8 then 2 else 1))
        (vp9_chromaDims vimg.d_w vimg.d_h vimg.fmt).2) := by
  obtain ⟨-, -, -, -, -, rfl⟩ := av1_extract_inv p pic fa ha
  obtain ⟨-, -, -, -, -, -, -, rfl⟩ := hevc_extract_inv p img fh hh
  obtain ⟨-, -, -, -, rfl⟩ := vp9_extract_inv p vimg fv hv
  refine ⟨⟨?_, ?_, ?_⟩, ⟨?_, ?_, ?_⟩, ⟨?_, ?_, ?_⟩⟩ <;>
    exact copyPlane_packedCopyOK ..

/-- C2 witness: the packed-copy contract instantiated at concrete 8-bit
4:2:0 pictures of each of the three libraries. -/
theorem claim_C2_witness :
    packedCopyOK (av1_frame av1Pic8).yPlane (av1Pic8.plane 0) (av1Pic8.stride 0)
      (av1Pic8.w * (if av1Pic8.bpc > 8 then 2 else 1)) av1Pic8.h ∧
    packedCopyOK (hevc_frame hevcImg8).yPlane (hevcImg8.plane 0) (hevcImg8.stride 0)
      (hevcImg8.width * (if hevcImg8.bpp > 8 then 2 else 1)) hevcImg8.height ∧
    packedCopyOK (vp9_frame vp9Img8).yPlane (vp9Img8.plane 0) (vp9Img8.stride 0)
      (vp9Img8.d_w * (if vpx_fmt_bpc vp9Img8.fmt > 8 then 2 else 1)) vp9Img8.d_h := by
  have h := claim_C2 allOkPlan av1Pic8 hevcImg8 vp9Img8
    (av1_frame av1Pic8) (hevc_frame hevcImg8) (vp9_frame vp9Img8) rfl rfl rfl
  exact ⟨h.1.1, h.2.1.1, h.2.2.1⟩

/-- C3: in all three adapters, for every picture whose reported subsampling
is one of 420, 422, 444 (always the case for VP9) and any reported bit
depth, the stored ySize is width * height * bytesPerSample and the stored
uvSize — the size of each single chroma plane — is
chromaW * chromaH * bytesPerSample, where bytesPerSample is 2 when the
reported depth exceeds 8 and 1 otherwise and the chroma dimensions follow
the spec formula. -/
theorem claim_C3 (p : AllocPlan) (pic : Dav1dPicture) (img : De265Image)
    (vimg : VpxImage) (fa fh fv : DecodedFrame)
    (hla : pic.layout ≠ Dav1dPixelLayout.I400)
    (hlh : img.chroma ≠ De265Chroma.mono)
    (ha : (av1_extract_picture p (some pic)).frame = some fa)
    (hh : (hevc_extract_picture p (some img)).frame = some fh)
    (hv : (vp9_extract_image p (some vimg)).frame = some fv) :
    (fa.ySize = pic.w * pic.h * (if pic.bpc > 8 then 2 else 1) ∧
     fa.uvSize =
       (specChromaDims pic.w pic.h (layout_to_format pic.layout)).1 *
       (specChromaDims pic.w pic.h (layout_to_format pic.layout)).2 *
       (if pic.bpc > 8 then 2 else 1)) ∧
    (fh.ySize = img.width * img.height * (if img.bpp > 8 then 2 else 1) ∧
     fh.uvSize =
       (specChromaDims img.width img.height (chroma_to_format img.chroma)).1 *
       (specChromaDims img.width img.height (chroma_to_format img.chroma)).2 *
       (if img.bpp > 8 then 2 else 1)) ∧
    (fv.ySize = vimg.d_w * vimg.d_h * (if vpx_fmt_bpc vimg.fmt > 8 then 2 else 1) ∧
     fv.uvSize =
       (specChromaDims vimg.d_w vimg.d_h (vpx_fmt_to_chroma vimg.fmt)).1 *
       (specChromaDims vimg.d_w vimg.d_h (vpx_fmt_to_chroma vimg.fmt)).2 *
       (if vpx_fmt_bpc vimg.fmt > 8 then 2 else 1)) := by
  obtain ⟨-, -, -, -, -, rfl⟩ := av1_extract_inv p pic fa ha
  obtain ⟨-, -, -, -, -, -, -, rfl⟩ := hevc_extract_inv p img fh hh
  obtain ⟨-, -, -, -, rfl⟩ := vp9_extract_inv p vimg fv hv
  refine ⟨⟨rfl, ?_⟩, ⟨rfl, ?_⟩, ⟨rfl, ?_⟩⟩
  · simp [av1_frame, av1_chromaDims_eq_spec pic.w pic.h pic.layout hla]
  · simp [hevc_frame, hevc_chromaDims_eq_spec img.width img.height img.chroma hlh]
  · simp [vp9_frame, vp9_chromaDims_eq_spec vimg.d_w vimg.d_h vimg.fmt]

/-- C3 witness: the size equations instantiated at a 12-bit AV1 picture, an
8-bit HEVC image and a high-bit-depth VP9 image. -/
theorem claim_C3_witness :
    (av1_frame av1Pic12).ySize = 2 * 2 * 2 ∧
    (av1_frame av1Pic12).uvSize = 1 * 1 * 2 ∧
    (hevc_frame hevcImg8).ySize = 2 * 2 * 1 ∧
    (hevc_frame hevcImg8).uvSize = 1 * 1 * 1 ∧
    (vp9_frame vp9Img12).ySize = 2 * 2 * 2 ∧
    (vp9_frame vp9Img12).uvSize = 1 * 1 * 2 := by
  have h := claim_C3 allOkPlan av1Pic12 hevcImg8 vp9Img12
    (av1_frame av1Pic12) (hevc_frame hevcImg8) (vp9_frame vp9Img12)
    (by decide) (by decide) rfl rfl rfl
  refine ⟨?_, ?_, ?_, ?_, ?_, ?_⟩
  · simpa using h.1.1
  · simpa [av1Pic12, specChromaDims, layout_to_format] using h.1.2
  · simpa using h.2.1.1
  · simpa [hevcImg8, specChromaDims, chroma_to_format] using h.2.1.2
  · simpa [vp9Img12, vpx_fmt_bpc] using h.2.2.1
  · simpa [vp9Img12, specChromaDims, vpx_fmt_to_chroma, vpx_fmt_bpc] using h.2.2.2

/-- All-or-nothing allocation of the AV1 extraction (helper for C4). -/
theorem av1_allOrNothing (p : AllocPlan) (pic : Dav1dPicture) :
    ((av1_extract_picture p (some pic)).frame.isSome →
        av1_extract_picture p (some pic) =
          ⟨some (av1_frame pic), [Buf.y, Buf.u, Buf.v, Buf.frameRec], []⟩) ∧
    ((av1_extract_picture p (some pic)).frame = none →
        (av1_extract_picture p (some pic)).freed =
          (av1_extract_picture p (some pic)).allocated) ∧
    (¬(p.yOk = true ∧ p.uOk = true ∧ p.vOk = true ∧ p.fOk = true) →
        (av1_extract_picture p (some pic)).frame = none) := by
  by_cases h0 : pic.dataNull 0
  · simp [av1_extract_picture, h0]
  · by_cases hp : (p.yOk && p.uOk && p.vOk && p.fOk) = true
    · simp only [Bool.and_eq_true] at hp
      obtain ⟨⟨⟨h1, h2⟩, h3⟩, h4⟩ := hp
      simp [av1_extract_picture, h0, AllocPlan.allocated, h1, h2, h3, h4]
    · simp [av1_extract_picture, h0, hp]

/-- All-or-nothing allocation of the HEVC extraction (helper for C4). -/
theorem hevc_allOrNothing (p : AllocPlan) (img : De265Image) :
    ((hevc_extract_picture p (some img)).frame.isSome →
        hevc_extract_picture p (some img) =
          ⟨some (hevc_frame img), [Buf.y, Buf.u, Buf.v, Buf.frameRec], []⟩) ∧
    ((hevc_extract_picture p (some img)).frame = none →
        (hevc_extract_picture p (some img)).freed =
          (hevc_extract_picture p (some img)).allocated) ∧
    (¬(p.yOk = true ∧ p.uOk = true ∧ p.vOk = true ∧ p.fOk = true) →
        (hevc_extract_picture p (some img)).frame = none) := by
  by_cases h0 : (img.planeNull 0 || img.planeNull 1 || img.planeNull 2) = true
  · simp [hevc_extract_picture, h0]
  · by_cases hp : (p.yOk && p.uOk && p.vOk && p.fOk) = true
    · simp only [Bool.and_eq_true] at hp
      obtain ⟨⟨⟨h1, h2⟩, h3⟩, h4⟩ := hp
      simp [hevc_extract_picture, h0, AllocPlan.allocated, h1, h2, h3, h4]
    · simp [hevc_extract_picture, h0, hp]

/-- All-or-nothing allocation of the VP9 extraction (helper for C4). -/
theorem vp9_allOrNothing (p : AllocPlan) (img : VpxImage) :
    ((vp9_extract_image p (some img)).frame.isSome →
        vp9_extract_image p (some img) =
          ⟨some (vp9_frame img), [Buf.y, Buf.u, Buf.v, Buf.frameRec], []⟩) ∧
    ((vp9_extract_image p (some img)).frame = none →
        (vp9_extract_image p (some img)).freed =
          (vp9_extract_image p (some img)).allocated) ∧
    (¬(p.yOk = true ∧ p.uOk = true ∧ p.vOk = true ∧ p.fOk = true) →
        (vp9_extract_image p (some img)).frame = none) := by
  by_cases hp : (p.yOk && p.uOk && p.vOk && p.fOk) = true
  · simp only [Bool.and_eq_true] at hp
    obtain ⟨⟨⟨h1, h2⟩, h3⟩, h4⟩ := hp
    simp [vp9_extract_image, AllocPlan.allocated, h1, h2, h3, h4]
  · simp [vp9_extract_image, hp]

/-- C4: in all three adapters, an extraction attempt either has all four
mallocs succeed — and then a fully populated record is returned, all four
blocks are allocated and ownership of all of them passes to the caller
(none freed) — or some malloc fails, no record is returned, and exactly the
blocks that were allocated are freed; when a record comes back the plan was
all-successful, so a partially filled record is never returned. -/
theorem claim_C4 (p : AllocPlan) (pic : Dav1dPicture) (img : De265Image)
    (vimg : VpxImage) :
    (((av1_extract_picture p (some pic)).frame.isSome →
        av1_extract_picture p (some pic) =
          ⟨some (av1_frame pic), [Buf.y, Buf.u, Buf.v, Buf.frameRec], []⟩) ∧
     ((av1_extract_picture p (some pic)).frame = none →
        (av1_extract_picture p (some pic)).freed =
          (av1_extract_picture p (some pic)).allocated) ∧
     (¬(p.yOk = true ∧ p.uOk = true ∧ p.vOk = true ∧ p.fOk = true) →
        (av1_extract_picture p (some pic)).frame = none)) ∧
    (((hevc_extract_picture p (some img)).frame.isSome →
        hevc_extract_picture p (some img) =
          ⟨some (hevc_frame img), [Buf.y, Buf.u, Buf.v, Buf.frameRec], []⟩) ∧
     ((hevc_extract_picture p (some img)).frame = none →
        (hevc_extract_picture p (some img)).freed =
          (hevc_extract_picture p (some img)).allocated) ∧
     (¬(p.yOk = true ∧ p.uOk = true ∧ p.vOk = true ∧ p.fOk = true) →
        (hevc_extract_picture p (some img)).frame = none)) ∧
    (((vp9_extract_image p (some vimg)).frame.isSome →
        vp9_extract_image p (some vimg) =
          ⟨some (vp9_frame vimg), [Buf.y, Buf.u, Buf.v, Buf.frameRec], []⟩) ∧
     ((vp9_extract_image p (some vimg)).frame = none →
        (vp9_extract_image p (some vimg)).freed =
          (vp9_extract_image p (some vimg)).allocated) ∧
     (¬(p.yOk = true ∧ p.uOk = true ∧ p.vOk = true ∧ p.fOk = true) →
        (vp9_extract_image p (some vimg)).frame = none)) :=
  ⟨av1_allOrNothing p pic, hevc_allOrNothing p img, vp9_allOrNothing p vimg⟩

/-- The all-but-U-malloc-succeeds allocation plan, a concrete allocation
failure. -/
def noUPlan : AllocPlan := ⟨true, false, true, true⟩

/-- C4 witness: with every malloc succeeding the AV1 extraction returns the
populated record and frees nothing; with the U malloc failing, all three
extractions return no record and free exactly what they allocated. -/
theorem claim_C4_witness :
    av1_extract_picture allOkPlan (some av1Pic8) =
      ⟨some (av1_frame av1Pic8), [Buf.y, Buf.u, Buf.v, Buf.frameRec], []⟩ ∧
    (av1_extract_picture noUPlan (some av1Pic8)).frame = none ∧
    (av1_extract_picture noUPlan (some av1Pic8)).freed =
      (av1_extract_picture noUPlan (some av1Pic8)).allocated ∧
    (hevc_extract_picture noUPlan (some hevcImg8)).frame = none ∧
    (vp9_extract_image noUPlan (some vp9Img8)).frame = none := by
  have hOk := claim_C4 allOkPlan av1Pic8 hevcImg8 vp9Img8
  have hNoU := claim_C4 noUPlan av1Pic8 hevcImg8 vp9Img8
  refine ⟨hOk.1.1 (by decide), ?_, ?_, ?_, ?_⟩
  · exact hNoU.1.2.2 (by decide)
  · exact hNoU.1.2.1 (hNoU.1.2.2 (by decide))
  · exact hNoU.2.1.2.2 (by decide)
  · exact hNoU.2.2.2.2 (by decide)

/-- A concrete 2x2 4:2:0 libde265 image reporting 12 bits per pixel, as
libde265 yields for a 12-bit range-extension stream. -/
def hevcImg12 : De265Image :=
  { width := 2, height := 2, bpp := 12, chroma := .c420,
    planeNull := fun _ => false, plane := fun _ off => UInt8.ofNat off,
    stride := fun _ => 8 }

/-- C5: the AV1 and HEVC wrappers store the library-reported bit depth
unchanged in the bitDepth field, so a 12-bit picture produces a record with
bitDepth 12, not a value in {8, 10}; this contradicts the documented range
(the struct comment says 8 or 10).  Only the VP9 wrapper clamps the field
via vpx_fmt_bpc. -/
theorem claim_C5 :
    (av1_extract_picture allOkPlan (some av1Pic12)).frame.map DecodedFrame.bitDepth
      = some 12 ∧
    (hevc_extract_picture allOkPlan (some hevcImg12)).frame.map DecodedFrame.bitDepth
      = some 12 ∧
    (vp9_extract_image allOkPlan (some vp9Img12)).frame.map DecodedFrame.bitDepth
      = some 10 ∧
    ¬(12 = 8 ∨ 12 = 10) := by
  refine ⟨rfl, rfl, rfl, by decide⟩

/-- C6 counterexample: an already-destroyed handle is not a silent no-op.
After destroy frees the struct, its bytes are unspecified; when the freed
memory still holds the old non-NULL context pointer — the ordinary residue
of free — the flush guard cannot tell the dangling struct from a live one
and proceeds into dav1d calls on the freed context.  So the claim as stated
fails at the concrete input: av1_flush on a destroyed token whose residual
ctx field is non-NULL. -/
theorem claim_C6_counterexample :
    av1_flush_onToken (Deref.dangling true) = OpOutcome.proceeds ∧
    av1_flush_onToken (Deref.dangling true) ≠ OpOutcome.noop 0 := by
  exact ⟨rfl, by decide⟩

/-- C6 amended: passing a NULL (zero) handle token to any operation of any
adapter, or a NULL record token to free_frame, is a silent no-op — the call
returns the zero result without touching the library or the allocator.
(An already-destroyed token enjoys no such guarantee: the guard reads freed
memory, see the counterexample.) -/
theorem claim_C6 (b : Bool) (s : Int) :
    av1_configure_onToken Deref.null b s = OpOutcome.noop 0 ∧
    av1_decode_onToken Deref.null b s = OpOutcome.noop 0 ∧
    av1_flush_onToken Deref.null = OpOutcome.noop 0 ∧
    av1_destroy_onToken Deref.null = OpOutcome.noop 0 ∧
    hevc_configure_onToken Deref.null b s = OpOutcome.noop 0 ∧
    hevc_decode_onToken Deref.null b s = OpOutcome.noop 0 ∧
    hevc_flush_onToken Deref.null = OpOutcome.noop 0 ∧
    hevc_destroy_onToken Deref.null = OpOutcome.noop 0 ∧
    vp9_configure_onToken Deref.null b s = OpOutcome.noop 0 ∧
    vp9_decode_onToken Deref.null b s = OpOutcome.noop 0 ∧
    vp9_flush_onToken Deref.null = OpOutcome.noop 0 ∧
    vp9_destroy_onToken Deref.null = OpOutcome.noop 0 ∧
    free_frame_onToken Deref.null = OpOutcome.noop 0 := by
  refine ⟨rfl, rfl, rfl, rfl, rfl, rfl, rfl, rfl, rfl, rfl, rfl, rfl, rfl⟩

/-- C7: on a live handle, decode with a NULL data pointer or a size at most
zero returns the empty token, leaves the handle (wrapper session and
library context alike) unchanged, and makes no library or allocator call,
in all three adapters. -/
theorem claim_C7 {Ctx : Type} (alib : Dav1dLib Ctx) (hlib : De265Lib Ctx)
    (vlib : VpxLib Ctx) (dataCreateOk : Bool) (plan : AllocPlan)
    (da : Av1Decoder Ctx) (dh : HevcDecoder Ctx) (dv : Vp9Decoder Ctx)
    (data : Option (List UInt8)) (size k : Int)
    (hla : da.ctx.isSome = true) (hlh : dh.ctx.isSome = true)
    (hlv : dv.inited = true)
    (hbad : data = none ∨ size ≤ 0) :
    av1_decode alib dataCreateOk plan (some da) data size k = (none, some da, []) ∧
    hevc_decode hlib plan (some dh) data size k = (none, some dh, []) ∧
    vp9_decode vlib plan (some dv) data size k = (none, some dv, []) := by
  obtain ⟨ca, hca⟩ := Option.isSome_iff_exists.mp hla
  obtain ⟨ch, hch⟩ := Option.isSome_iff_exists.mp hlh
  rcases hbad with h | h
  · subst h
    simp_all [av1_decode, hevc_decode, vp9_decode, hca, hch]
  · cases data <;> simp_all [av1_decode, hevc_decode, vp9_decode, hca, hch]

/-- C7 witness: a zero-size decode on live handles of all three adapters,
over the trivial context. -/
theorem claim_C7_witness :
    av1_decode trivialDav1dLib true allOkPlan (some ⟨some ()⟩) (some []) 0 0 =
      (none, some ⟨some ()⟩, []) ∧
    hevc_decode trivialDe265Lib allOkPlan (some ⟨some ()⟩) (some []) 0 0 =
      (none, some ⟨some ()⟩, []) ∧
    vp9_decode trivialVpxLib allOkPlan (some ⟨(), true⟩) (some []) 0 0 =
      (none, some ⟨(), true⟩, []) :=
  claim_C7 trivialDav1dLib trivialDe265Lib trivialVpxLib true allOkPlan
    ⟨some ()⟩ ⟨some ()⟩ ⟨(), true⟩ (some []) 0 0 rfl rfl rfl
    (Or.inr (by decide))

/-- C8: for the AV1 and VP9 adapters, configure is accepted and is the
identity on the handle state, so any decode sequence after configure yields
exactly the same result tokens and final state as the same sequence with
configure never called. -/
theorem claim_C8 {Ctx : Type} (alib : Dav1dLib Ctx) (vlib : VpxLib Ctx)
    (da : Option (Av1Decoder Ctx)) (dv : Option (Vp9Decoder Ctx))
    (cfg : Option (List UInt8)) (csize : Int) (ins : List DecodeInput) :
    av1_configure da cfg csize = da ∧
    vp9_configure dv cfg csize = dv ∧
    runAv1Decodes alib (av1_configure da cfg csize) ins = runAv1Decodes alib da ins ∧
    runVp9Decodes vlib (vp9_configure dv cfg csize) ins = runVp9Decodes vlib dv ins :=
  ⟨rfl, rfl, rfl, rfl⟩

/-- C9: in all three adapters the decode result — result token, updated
handle state and library-call trace alike — is the same for any two values
of the keyframe-hint argument. -/
theorem claim_C9 {Ctx : Type} (alib : Dav1dLib Ctx) (hlib : De265Lib Ctx)
    (vlib : VpxLib Ctx) (dataCreateOk : Bool) (plan : AllocPlan)
    (da : Option (Av1Decoder Ctx)) (dh : Option (HevcDecoder Ctx))
    (dv : Option (Vp9Decoder Ctx)) (data : Option (List UInt8))
    (size k1 k2 : Int) :
    av1_decode alib dataCreateOk plan da data size k1 =
      av1_decode alib dataCreateOk plan da data size k2 ∧
    hevc_decode hlib plan dh data size k1 =
      hevc_decode hlib plan dh data size k2 ∧
    vp9_decode vlib plan dv data size k1 =
      vp9_decode vlib plan dv data size k2 :=
  ⟨rfl, rfl, rfl⟩

/-- C10: every VP9 record reports bitDepth 10 when the source format
carries the high-bit-depth flag and 8 otherwise — always vpx_fmt_bpc of the
format; the bit_depth field of the vpx image (e.g. 12) is never consulted,
so changing it changes nothing in the extraction. -/
theorem claim_C10 (p : AllocPlan) (img : VpxImage) (f : DecodedFrame)
    (h : (vp9_extract_image p (some img)).frame = some f) :
    f.bitDepth = vpx_fmt_bpc img.fmt ∧
    f.bitDepth = (if img.fmt.highBitDepth then 10 else 8) ∧
    (∀ d : Nat,
      vp9_extract_image p (some { img with bit_depth := d }) =
        vp9_extract_image p (some img)) := by
  obtain ⟨-, -, -, -, rfl⟩ := vp9_extract_inv p img f h
  exact ⟨rfl, rfl, fun d => rfl⟩

/-- C10 witness: a concrete high-bit-depth image whose true sample depth is
12 yields bitDepth 10, and a concrete 8-bit image yields bitDepth 8. -/
theorem claim_C10_witness :
    (vp9_frame vp9Img12).bitDepth = 10 ∧ (vp9_frame vp9Img8).bitDepth = 8 :=
  ⟨by
    have h := claim_C10 allOkPlan vp9Img12 (vp9_frame vp9Img12) rfl
    simpa [vp9Img12, vpx_fmt_bpc] using h.1,
   by
    have h := claim_C10 allOkPlan vp9Img8 (vp9_frame vp9Img8) rfl
    simpa [vp9Img8, vpx_fmt_bpc] using h.1⟩

end WasmDecoders
